import Mathlib

/-!
# Verification of the admin-dashboard session/token layer

Shallow embedding of the authentication layer of `src/app.js` (and the
duplicated variant in `src/unnamed/part_000`): token storage, JWT expiry
inspection, CSRF-token caching and retry, forced logout, and the
authenticated fetch wrapper `adminFetch`.

Modelling conventions:
* JS strings are Lean `String`s; the character-level operations the code
  uses (`split('.')`, `includes`, `toUpperCase`, `startsWith`) are
  implemented structurally over `String.toList` so that they compute by
  kernel reduction.
* The browser primitives `atob` and `JSON.parse` applied to the middle
  token segment (after the base64url dash/underscore replacement)
  are modelled by an abstract decoder `decode : String → Option Payload`
  passed as a parameter: `none` models the call throwing (the exception is
  caught by the surrounding `try`), `some p` models a successfully parsed
  JSON object whose numeric `exp` member is `p.exp` (`none` when the object
  has no `exp` member).
* `Date.now()` is modelled by an explicit `now : Int` (epoch seconds after
  the code's `Math.floor(Date.now() / 1000)`).
* Browser state (localStorage slot `adminToken`, the module-level
  `csrfTokenCache`, the `login-required-modal` DOM node) is a record `St`
  threaded explicitly; `fetch` outcomes come from an oracle
  `Nat → FetchOutcome` indexed by the number of fetches issued so far, and
  every issued fetch is recorded in `St.fetchLog`.
-/

/-- JS truthiness of an optional string: `undefined`/`null` and `''` are
falsy, every other string is truthy. -/
def truthyS : Option String → Bool
  | none => false
  | some s => s ≠ ""

/-- The parsed JSON payload of a token, as far as the code inspects it:
only the `exp` member (epoch seconds) is ever read. `exp = none` models a
JSON object with no `exp` member. -/
structure Payload where
  exp : Option Int
deriving DecidableEq

/-- Character-level model of JS `String.prototype.split('.')` on the list
of characters: splits at every `'.'`, keeping empty pieces, so that
`splitDotChars [] = [[]]` (JS `''.split('.') === ['']`). -/
def splitDotChars : List Char → List (List Char)
  | [] => [[]]
  | c :: rest =>
    let r := splitDotChars rest
    if c = '.' then [] :: r
    else
      match r with
      | h :: t => (c :: h) :: t
      | [] => [[c]]

/-- `token.split('.')` from the source, via `splitDotChars`. -/
def splitDot (s : String) : List String :=
  (splitDotChars s.toList).map (fun l => String.mk l)

/-- JS `a.includes(b)`: `b` occurs as a contiguous substring of `a`. -/
def strContains (s sub : String) : Bool :=
  go s.toList sub.toList
where
  /-- `sub` occurs as a contiguous sublist of `l`. -/
  go : List Char → List Char → Bool
    | l, sub =>
      match l with
      | [] => sub.isEmpty
      | _ :: t => sub.isPrefixOf l || go t sub

/-- `isTokenExpired(token)` from `src/app.js` lines 135-157 (identical in
`src/unnamed/part_000` lines 22-44): empty token ⇒ expired; not exactly 3
dot-separated segments ⇒ expired; payload decode failure (caught
exception) ⇒ expired; truthy `payload.exp` ⇒ `payload.exp < now`;
otherwise (no `exp`, or falsy `exp = 0`) ⇒ not expired. -/
def isTokenExpired (decode : String → Option Payload) (now : Int)
    (token : String) : Bool :=
  if token = "" then true
  else
    match splitDot token with
    | [_, p, _] =>
      match decode p with
      | none => true
      | some payload =>
        match payload.exp with
        | some e => if e ≠ 0 then decide (e < now) else false
        | none => false
    | _ => true

/-- `isTokenExpiringSoon(token)` from `src/app.js` lines 160-179: same
shape as `isTokenExpired` but compares against `now + 5 * 60`. -/
def isTokenExpiringSoon (decode : String → Option Payload) (now : Int)
    (token : String) : Bool :=
  if token = "" then true
  else
    match splitDot token with
    | [_, p, _] =>
      match decode p with
      | none => true
      | some payload =>
        match payload.exp with
        | some e =>
          let fiveMinutes : Int := 5 * 60
          if e ≠ 0 then decide (e < now + fiveMinutes) else false
        | none => false
    | _ => true

/-- The spec's `TokenInspector.decode`: split on `.`, require exactly 3
segments, decode the middle segment; nothing on any failure. In the source
this is the inline decode step shared by `isTokenExpired` and
`isTokenExpiringSoon`. -/
def decodeToken (decode : String → Option Payload) (token : String) :
    Option Payload :=
  match splitDot token with
  | [_, p, _] => decode p
  | _ => none

/-- Concrete decoder for witnesses: every segment decodes to a payload
with `exp = 1000` (realised by a middle segment that base64url-encodes a
JSON object with that `exp`). -/
def decodeExp1000 : String → Option Payload := fun _ => some ⟨some 1000⟩

/-- Concrete decoder for witnesses: every segment decodes to a JSON object
with no `exp` member. -/
def decodeNoExp : String → Option Payload := fun _ => some ⟨none⟩

theorem splitDot_empty : splitDot "" = [""] := by decide

theorem splitDot_ne_empty {token : String} {a p c : String}
    (hs : splitDot token = [a, p, c]) : token ≠ "" := by
  intro h
  rw [h, splitDot_empty] at hs
  simp at hs

/-- C3 counterexample: at the boundary `now = exp` (both 1000, the `exp`
member present and nonzero) the code returns `false` — the token is still
treated as usable — contradicting "isTokenExpired returns true whenever
now >= exp (in particular at the boundary now = exp)". -/
theorem isTokenExpired_boundary_counterexample :
    decodeExp1000 "p" = some ⟨some 1000⟩ ∧ (1000 : Int) ≥ 1000 ∧
    isTokenExpired decodeExp1000 1000 "h.p.s" = false :=
  ⟨rfl, by decide, by decide⟩

/-- C3 (amended): for a well-formed three-segment token whose payload
decodes with a nonzero `exp`, `isTokenExpired` is true exactly when
`exp < now` (strict): the token is treated as usable while `now ≤ exp`,
so it is still usable at the boundary `now = exp`; it is expired for
`exp = now - 1` and not expired for `exp = now + 1000000`. -/
theorem isTokenExpired_iff_exp_lt_now (decode : String → Option Payload)
    (now e : Int) (token a p c : String)
    (hs : splitDot token = [a, p, c])
    (hd : decode p = some ⟨some e⟩) (he : e ≠ 0) :
    isTokenExpired decode now token = true ↔ e < now := by
  unfold isTokenExpired
  rw [if_neg (splitDot_ne_empty hs), hs]
  simp [hd, he]

theorem isTokenExpired_iff_exp_lt_now_witness :
    splitDot "h.p.s" = ["h", "p", "s"] ∧
    (isTokenExpired decodeExp1000 2000 "h.p.s" = true ↔ (1000 : Int) < 2000) :=
  ⟨by decide,
   isTokenExpired_iff_exp_lt_now decodeExp1000 2000 1000 "h.p.s" "h" "p" "s"
     (by decide) rfl (by decide)⟩

/-- C6: for a well-formed three-segment token whose payload decodes to a
JSON object with no `exp` member, `isTokenExpired` returns false and
`isTokenExpiringSoon` also returns false. -/
theorem noExp_not_expired_not_expiringSoon (decode : String → Option Payload)
    (now : Int) (token a p c : String)
    (hs : splitDot token = [a, p, c]) (hd : decode p = some ⟨none⟩) :
    isTokenExpired decode now token = false ∧
    isTokenExpiringSoon decode now token = false := by
  have hne := splitDot_ne_empty hs
  constructor
  · unfold isTokenExpired
    rw [if_neg hne, hs]
    simp [hd]
  · unfold isTokenExpiringSoon
    rw [if_neg hne, hs]
    simp [hd]

theorem noExp_not_expired_not_expiringSoon_witness :
    splitDot "h.p.s" = ["h", "p", "s"] ∧
    isTokenExpired decodeNoExp 12345 "h.p.s" = false ∧
    isTokenExpiringSoon decodeNoExp 12345 "h.p.s" = false := by
  have h := noExp_not_expired_not_expiringSoon decodeNoExp 12345 "h.p.s"
    "h" "p" "s" (by decide) rfl
  exact ⟨by decide, h.1, h.2⟩

/-- C8: for every string that does not split into exactly 3 dot-separated
segments, `isTokenExpired` returns true (for every decoder and time) and
the decode step yields nothing. -/
theorem malformed_expired_and_decode_none (decode : String → Option Payload)
    (now : Int) (token : String)
    (h : (splitDot token).length ≠ 3) :
    isTokenExpired decode now token = true ∧
    decodeToken decode token = none := by
  by_cases he : token = ""
  · subst he
    exact ⟨by simp [isTokenExpired], by simp [decodeToken, splitDot_empty]⟩
  · rcases hsp : splitDot token with - | ⟨a, - | ⟨p, - | ⟨c, - | ⟨d, rest⟩⟩⟩⟩ <;>
      simp [hsp] at h <;>
      exact ⟨by simp [isTokenExpired, he, hsp], by simp [decodeToken, hsp]⟩

theorem malformed_expired_and_decode_none_witness :
    (splitDot "a.b").length ≠ 3 ∧
    isTokenExpired decodeExp1000 0 "a.b" = true ∧
    decodeToken decodeExp1000 "a.b" = none := by
  have h := malformed_expired_and_decode_none decodeExp1000 0 "a.b" (by decide)
  exact ⟨by decide, h.1, h.2⟩

/-- C9: for every decoder, time and token string, if `isTokenExpired` is
true then `isTokenExpiringSoon` is true: the 5-minute-lookahead predicate
is a superset of the expired predicate under every branch (empty token,
malformed token, decode failure, missing or zero `exp`, and the `exp`
comparison). -/
theorem expired_implies_expiringSoon (decode : String → Option Payload)
    (now : Int) (token : String)
    (h : isTokenExpired decode now token = true) :
    isTokenExpiringSoon decode now token = true := by
  unfold isTokenExpired at h
  unfold isTokenExpiringSoon
  by_cases he : token = ""
  · rw [if_pos he]
  · rw [if_neg he] at h ⊢
    rcases hsp : splitDot token with - | ⟨a, - | ⟨p, - | ⟨c, - | ⟨d, rest⟩⟩⟩⟩ <;>
      rw [hsp] at h <;> try rfl
    simp at h ⊢
    rcases hd : decode p with - | payload <;> rw [hd] at h <;> simp at h ⊢
    rcases hexp : payload.exp with - | e <;> rw [hexp] at h <;> simp at h ⊢
    obtain ⟨h1, h2⟩ := h
    exact ⟨h1, by omega⟩

theorem expired_implies_expiringSoon_witness :
    isTokenExpired decodeExp1000 2000 "h.p.s" = true ∧
    isTokenExpiringSoon decodeExp1000 2000 "h.p.s" = true :=
  ⟨by decide, expired_implies_expiringSoon decodeExp1000 2000 "h.p.s" (by decide)⟩

/-! ## The stateful layer: CSRF cache, token store, logout, adminFetch -/

/-- `API_BASE_URL` from `src/app.js` line 2. -/
def API_BASE_URL : String := "https://api.aijob.com.tw/api"

/-- The body of a JSON response, as far as the code reads it: the `error`,
`detail` and `csrf_token` members (absent members are `none`). -/
structure RBody where
  error : Option String
  detail : Option String
  csrf_token : Option String
deriving DecidableEq

/-- A fetch `Response` as the code observes it: the status code and the
result of `await response.clone().json()` (`none` when parsing the body
throws, which the code catches). -/
structure Response where
  status : Nat
  jsonBody : Option RBody
deriving DecidableEq

/-- `response.ok`: status in the inclusive range 200-299. -/
def Response.ok (r : Response) : Bool :=
  decide (200 ≤ r.status) && decide (r.status ≤ 299)

/-- The outcome the host `fetch` produces for one call: a response, or a
thrown exception carrying the JS error `name` and `message`. -/
inductive FetchOutcome where
  | success (r : Response)
  | throwErr (name msg : String)
deriving DecidableEq

/-- A JS exception as the code observes it (`error.name`,
`error.message`). Errors the code itself throws via `new Error(msg)` have
name `"Error"`. -/
structure JsErr where
  name : String
  msg : String
deriving DecidableEq

deriving instance DecidableEq for Except

/-- One issued network call, as recorded for counting and inspection. -/
structure FetchCall where
  url : String
  method : String
  headers : List (String × String)
deriving DecidableEq

/-- The browser-visible state the auth layer reads and writes:
`adminToken` is the localStorage slot (`""` = absent, matching
`localStorage.getItem('adminToken') || ''`); `csrfCache` is the module
variable `csrfTokenCache`; `modalShown`/`modalMsg` model the
`login-required-modal` DOM node and its message; `fetchLog` records every
`fetch` issued (its length indexes the oracle); `logouts` records each
`forceLogout` invocation's reason, in order. -/
structure St where
  adminToken : String
  csrfCache : Option String
  modalShown : Bool
  modalMsg : String
  fetchLog : List FetchCall
  logouts : List String
deriving DecidableEq

/-- JS-object header lookup (exact, case-sensitive key). -/
def hget (hs : List (String × String)) (k : String) : Option String :=
  (hs.find? (fun q => q.1 = k)).map (fun q => q.2)

/-- JS-object header update `{...hs, k: v}`: removes any previous binding
of `k` and appends the new one. -/
def hset (hs : List (String × String)) (k v : String) :
    List (String × String) :=
  hs.filter (fun q => q.1 ≠ k) ++ [(k, v)]

/-- `getAdminToken()` from `src/app.js` lines 118-120:
`localStorage.getItem('adminToken') || ''`. -/
def getAdminToken (s : St) : String := s.adminToken

/-- `clearCsrfToken()` from `src/app.js` lines 112-114. -/
def clearCsrfToken (s : St) : St := { s with csrfCache := none }

/-- `setAdminToken(token)` from `src/app.js` lines 122-132: persists a
truthy token or removes the slot; either way clears the CSRF cache. -/
def setAdminToken (token : String) (s : St) : St :=
  if token ≠ "" then
    clearCsrfToken { s with adminToken := token }
  else
    clearCsrfToken { s with adminToken := "" }

/-- `showLoginRequired(message)` from `src/app.js` lines 312-322 (DOM
effects reduced to the modal's presence and message): if the modal is
already shown, update its message unless the message is the default;
otherwise create the modal carrying the message. -/
def showLoginRequired (message : String) (s : St) : St :=
  if s.modalShown then
    if message ≠ "請選擇登入方式" then { s with modalMsg := message } else s
  else
    { s with modalShown := true, modalMsg := message }

/-- `forceLogout(reason)` from `src/app.js` lines 199-212: records the
invocation, clears the token via `setAdminToken('')` (which also clears
the CSRF cache), and shows the login prompt with the reason. The removal
of the unrelated legacy localStorage keys `admin_token` and
`admin_login_time` has no observable effect on this state. -/
def forceLogout (reason : String) (s : St) : St :=
  showLoginRequired reason
    (setAdminToken "" { s with logouts := s.logouts ++ [reason] })

/-- Issue one `fetch`: record the call and consume the oracle outcome at
the index given by the number of fetches issued so far. -/
def doFetch (oracle : Nat → FetchOutcome) (url method : String)
    (headers : List (String × String)) (s : St) : FetchOutcome × St :=
  (oracle s.fetchLog.length,
   { s with fetchLog := s.fetchLog ++ [⟨url, method, headers⟩] })

/-- `getCsrfToken()` from `src/app.js` lines 88-110: return the cached
token if truthy; with no admin token return `null` without fetching;
otherwise `GET <base>/csrf-token` with the bearer header — any thrown
exception is caught and yields `null`, a non-ok response yields `null`,
and an ok response stores `data.csrf_token` in the cache and returns it.
Never throws. -/
def getCsrfToken (oracle : Nat → FetchOutcome) (s : St) :
    Option String × St :=
  if truthyS s.csrfCache then (s.csrfCache, s)
  else if getAdminToken s = "" then (none, s)
  else
    let fr := doFetch oracle (API_BASE_URL ++ "/csrf-token") "GET"
      [("Authorization", "Bearer " ++ getAdminToken s)] s
    match fr with
    | (.throwErr _ _, s1) => (none, s1)
    | (.success r, s1) =>
      if r.ok then
        match r.jsonBody with
        | none => (none, s1)
        | some b => (b.csrf_token, { s1 with csrfCache := b.csrf_token })
      else (none, s1)

/-- `checkTokenStatus()` from `src/app.js` lines 547-567: with a truthy
stored token, an expired token forces logout and yields `false`, an
unexpired one yields `true` (the expiring-soon branch is an intentional
no-op); with no token, show the login modal if absent and yield `false`. -/
def checkTokenStatus (decode : String → Option Payload) (now : Int)
    (s : St) : Bool × St :=
  let token := getAdminToken s
  if token ≠ "" then
    if isTokenExpired decode now token then
      (false, forceLogout "登入已過期，請重新登入" s)
    else
      (true, s)
  else
    (false, if ¬s.modalShown then showLoginRequired "請先登入" s else s)

/-- JS `s.toUpperCase()` over the characters. -/
def jsToUpper (s : String) : String := String.mk (s.toList.map Char.toUpper)

/-- JS `s.startsWith(p)`. -/
def startsWithS (s p : String) : Bool := p.toList.isPrefixOf s.toList

/-- The effective HTTP method: `(options.method || 'GET').toUpperCase()`. -/
def effMethod (m : Option String) : String :=
  jsToUpper (match m with
    | some v => if v ≠ "" then v else "GET"
    | none => "GET")

/-- URL completion from `src/app.js` lines 224-233: absolute URLs pass
through; relative ones get a leading `/` if missing and are prefixed with
`API_BASE_URL`. -/
def normalizeUrl (url : String) : String :=
  if startsWithS url "http://" || startsWithS url "https://" then url
  else
    let url2 := if startsWithS url "/" then url else "/" ++ url
    API_BASE_URL ++ url2

/-- The `options` argument of `adminFetch`, as far as the code reads it:
`method` (absent ⇒ GET) and `headers`. -/
structure ReqOptions where
  method : Option String
  headers : List (String × String)
deriving DecidableEq

/-- Step 3 of `adminFetch` (`src/app.js` lines 235-250): merge the
`Authorization` header over the caller's headers; for mutating methods
with no caller-supplied CSRF header (either case spelling, truthy check),
obtain `getCsrfToken()` and attach it when truthy. Returns the final
headers and the state after the possible CSRF fetch. -/
def csrfAttach (oracle : Nat → FetchOutcome) (options : ReqOptions)
    (token : String) (s : St) : List (String × String) × St :=
  let headers0 := hset options.headers "Authorization" ("Bearer " ++ token)
  let method := effMethod options.method
  if ["POST", "PUT", "DELETE", "PATCH"].contains method
      && !truthyS (hget headers0 "X-CSRF-Token")
      && !truthyS (hget headers0 "x-csrf-token") then
    match getCsrfToken oracle s with
    | (some c, s2) =>
      if c ≠ "" then (hset headers0 "X-CSRF-Token" c, s2)
      else (headers0, s2)
    | (none, s2) => (headers0, s2)
  else (headers0, s)

/-- Step 5 of `adminFetch` (`src/app.js` lines 255-279): on status 403
whose parsed body has an `error` containing a CSRF marker, clear the CSRF
cache, obtain a fresh token, and when it is truthy retry once with
`options.headers` + `Authorization` + the new `X-CSRF-Token`; a retried ok
response (or a retry throw) is the final outcome (`some _`), anything else
falls through (`none`). A body that fails to parse is caught and falls
through. -/
def csrfRetryStep (oracle : Nat → FetchOutcome) (options : ReqOptions)
    (token fullUrl method : String) (response : Response) (s : St) :
    Option (Except JsErr Response) × St :=
  if response.status = 403 then
    match response.jsonBody with
    | some body =>
      match body.error with
      | some errStr =>
        if strContains errStr "CSRF" || strContains errStr "csrf" then
          match getCsrfToken oracle (clearCsrfToken s) with
          | (some c, s5) =>
            if c ≠ "" then
              let retryHeaders :=
                hset (hset options.headers "Authorization"
                  ("Bearer " ++ token)) "X-CSRF-Token" c
              match doFetch oracle fullUrl method retryHeaders s5 with
              | (.throwErr n m, s6) => (some (.error ⟨n, m⟩), s6)
              | (.success retryResponse, s6) =>
                if retryResponse.ok then (some (.ok retryResponse), s6)
                else (none, s6)
            else (none, s5)
          | (none, s5) => (none, s5)
        else (none, s)
      | none => (none, s)
    | none => (none, s)
  else (none, s)

/-- Step 6's message extraction (`src/app.js` lines 283-293):
`errorData.detail || errorData.error` when that is truthy, else the
generic `'認證失敗，請重新登入'`; an unparsable body also gives the generic
message. -/
def authErrorMessage (r : Response) : String :=
  match r.jsonBody with
  | none => "認證失敗，請重新登入"
  | some body =>
    match (if truthyS body.detail then body.detail else body.error) with
    | some m => if m ≠ "" then m else "認證失敗，請重新登入"
    | none => "認證失敗，請重新登入"

/-- `adminFetch(url, options)` from `src/app.js` lines 215-308, with state
threaded explicitly and `fetch` outcomes drawn from `oracle`. Faithful
control flow: (1) `checkTokenStatus`, throwing `'需要登入'` when it fails;
(2) re-read the token and complete the URL; (3) `csrfAttach`; (4) fetch;
(5) `csrfRetryStep`; (6) otherwise on status 401/403, `forceLogout` with
`authErrorMessage` and throw it; (7) other statuses return the response
as-is. The final `catch` of the source re-throws in both of its branches,
so every thrown exception propagates with state unchanged from the throw
point. The recorded method is the computed effective method. -/
def adminFetch (decode : String → Option Payload) (now : Int)
    (oracle : Nat → FetchOutcome) (url : String) (options : ReqOptions)
    (s : St) : Except JsErr Response × St :=
  match checkTokenStatus decode now s with
  | (false, s1) => (.error ⟨"Error", "需要登入"⟩, s1)
  | (true, s1) =>
    let token := getAdminToken s1
    let fullUrl := normalizeUrl url
    let method := effMethod options.method
    match csrfAttach oracle options token s1 with
    | (headers1, s3) =>
      match doFetch oracle fullUrl method headers1 s3 with
      | (.throwErr n m, s4) => (.error ⟨n, m⟩, s4)
      | (.success response, s4) =>
        match csrfRetryStep oracle options token fullUrl method
            response s4 with
        | (some outcome, s7) => (outcome, s7)
        | (none, s7) =>
          if response.status = 401 || response.status = 403 then
            let errorMessage := authErrorMessage response
            (.error ⟨"Error", errorMessage⟩, forceLogout errorMessage s7)
          else (.ok response, s7)

/-! ## Concrete fixtures for witnesses and counterexamples -/

/-- A state with a stored three-segment token, a previously cached CSRF
token, and no login modal. -/
def stFix : St := ⟨"h.p.s", some "old", false, "", [], []⟩

/-- A logged-out state: no token, empty CSRF cache, no modal. -/
def stNoTok : St := ⟨"", none, false, "", [], []⟩

/-- A POST request with no caller-supplied headers. -/
def optsPost : ReqOptions := ⟨some "POST", []⟩

/-- A GET request (no method given) with no caller-supplied headers. -/
def optsGet : ReqOptions := ⟨none, []⟩

/-- Oracle for the CSRF-retry scenario: first call answers 403 with a
CSRF-marker error body, second call (the csrf-token fetch) answers 200
with a fresh token, third call answers 200. -/
def oracleCsrfRetry : Nat → FetchOutcome := fun i =>
  if i = 0 then .success ⟨403, some ⟨some "CSRF token invalid", none, none⟩⟩
  else if i = 1 then .success ⟨200, some ⟨none, none, some "newcsrf"⟩⟩
  else .success ⟨200, some ⟨none, none, none⟩⟩

/-- Oracle answering every call with 401 `{detail: "session expired"}`. -/
def oracle401 : Nat → FetchOutcome := fun _ =>
  .success ⟨401, some ⟨none, some "session expired", none⟩⟩

/-- Oracle for a network that is down: every call throws
`TypeError: Failed to fetch` (connection refused). -/
def oracleDown : Nat → FetchOutcome := fun _ =>
  .throwErr "TypeError" "Failed to fetch"

/-! ## Claims about the stateful layer -/

/-- C1: whenever no token is stored or the stored token is expired,
`adminFetch` issues no network call (the fetch log is untouched), fails
immediately with the error `'需要登入'`, and session teardown holds
afterwards: the stored token is absent and the login modal is shown. -/
theorem adminFetch_failfast (decode : String → Option Payload) (now : Int)
    (oracle : Nat → FetchOutcome) (url : String) (options : ReqOptions)
    (s : St)
    (h : getAdminToken s = "" ∨
      isTokenExpired decode now (getAdminToken s) = true) :
    (adminFetch decode now oracle url options s).1 =
      .error ⟨"Error", "需要登入"⟩ ∧
    (adminFetch decode now oracle url options s).2.fetchLog = s.fetchLog ∧
    getAdminToken (adminFetch decode now oracle url options s).2 = "" ∧
    (adminFetch decode now oracle url options s).2.modalShown = true := by
  rcases h with ht | hexp
  · unfold getAdminToken at ht
    by_cases hm : s.modalShown <;>
      simp [adminFetch, checkTokenStatus, getAdminToken, showLoginRequired,
        ht, hm]
  · simp only [getAdminToken] at hexp
    by_cases ht : s.adminToken = ""
    · by_cases hm : s.modalShown <;>
        simp [adminFetch, checkTokenStatus, getAdminToken, showLoginRequired,
          ht, hm]
    · by_cases hm : s.modalShown <;>
        simp [adminFetch, checkTokenStatus, getAdminToken, forceLogout,
          setAdminToken, clearCsrfToken, showLoginRequired, ht, hexp, hm]

theorem adminFetch_failfast_witness :
    (getAdminToken stNoTok = "" ∨
      isTokenExpired decodeExp1000 5 (getAdminToken stNoTok) = true) ∧
    (adminFetch decodeExp1000 5 oracleDown "/x" optsGet stNoTok).1 =
      .error ⟨"Error", "需要登入"⟩ ∧
    (adminFetch decodeExp1000 5 oracleDown "/x" optsGet stNoTok).2.fetchLog
      = stNoTok.fetchLog ∧
    getAdminToken
      (adminFetch decodeExp1000 5 oracleDown "/x" optsGet stNoTok).2 = "" ∧
    (adminFetch decodeExp1000 5 oracleDown "/x" optsGet
      stNoTok).2.modalShown = true := by
  have h := adminFetch_failfast decodeExp1000 5 oracleDown "/x" optsGet
    stNoTok (Or.inl (by decide))
  exact ⟨Or.inl (by decide), h.1, h.2.1, h.2.2.1, h.2.2.2⟩

/-- Under an all-throwing oracle (network down), `getCsrfToken` returns
its truthy cache or `null`, never stores anything new, and leaves every
field except the fetch log unchanged. -/
theorem getCsrfToken_down (oracle : Nat → FetchOutcome) (n m : String)
    (ho : ∀ i, oracle i = .throwErr n m) (s : St) :
    ((getCsrfToken oracle s).1 =
      if truthyS s.csrfCache then s.csrfCache else none) ∧
    (getCsrfToken oracle s).2.adminToken = s.adminToken ∧
    (getCsrfToken oracle s).2.csrfCache = s.csrfCache ∧
    (getCsrfToken oracle s).2.modalShown = s.modalShown ∧
    (getCsrfToken oracle s).2.modalMsg = s.modalMsg ∧
    (getCsrfToken oracle s).2.logouts = s.logouts := by
  by_cases h1 : truthyS s.csrfCache <;> by_cases h2 : s.adminToken = "" <;>
    simp [getCsrfToken, getAdminToken, doFetch, ho, h1, h2]

/-- The state `csrfAttach` hands on is either untouched (no CSRF step) or
exactly the state `getCsrfToken` leaves. -/
theorem csrfAttach_st (oracle : Nat → FetchOutcome) (options : ReqOptions)
    (token : String) (s : St) :
    (csrfAttach oracle options token s).2 = s ∨
    (csrfAttach oracle options token s).2 = (getCsrfToken oracle s).2 := by
  unfold csrfAttach
  rcases hG : getCsrfToken oracle s with ⟨copt, s2⟩
  rcases copt with - | c
  · simp only [Prod.snd]
    split
    · right; rfl
    · left; rfl
  · by_cases hc : c = "" <;> simp only [hc, Prod.snd] <;> split <;> simp [hc]

/-- C5: with a locally valid token, when every network call throws a
transport-level exception, the exception propagates unchanged to the
caller (same name and message), and the session is untouched: stored
token, logout log, modal state and CSRF cache are all as before. -/
theorem adminFetch_transport_error (decode : String → Option Payload)
    (now : Int) (oracle : Nat → FetchOutcome) (url : String)
    (options : ReqOptions) (s : St) (n m : String)
    (ht : getAdminToken s ≠ "")
    (he : isTokenExpired decode now (getAdminToken s) = false)
    (ho : ∀ i, oracle i = .throwErr n m) :
    (adminFetch decode now oracle url options s).1 = .error ⟨n, m⟩ ∧
    getAdminToken (adminFetch decode now oracle url options s).2 =
      getAdminToken s ∧
    (adminFetch decode now oracle url options s).2.logouts = s.logouts ∧
    (adminFetch decode now oracle url options s).2.modalShown =
      s.modalShown ∧
    (adminFetch decode now oracle url options s).2.csrfCache =
      s.csrfCache := by
  have hg := getCsrfToken_down oracle n m ho s
  have hck : checkTokenStatus decode now s = (true, s) := by
    simp only [getAdminToken] at ht he
    unfold checkTokenStatus getAdminToken
    rw [if_pos ht, he]
    simp
  have hst3 := csrfAttach_st oracle options (getAdminToken s) s
  unfold adminFetch
  simp only [hck]
  rcases hCS : csrfAttach oracle options (getAdminToken s) s with ⟨headers1, s3⟩
  rw [hCS] at hst3
  simp only [] at hst3
  have hfields : s3.adminToken = s.adminToken ∧ s3.logouts = s.logouts ∧
      s3.modalShown = s.modalShown ∧ s3.csrfCache = s.csrfCache := by
    rcases hst3 with h3 | h3
    · rw [h3]; exact ⟨rfl, rfl, rfl, rfl⟩
    · rw [h3]; exact ⟨hg.2.1, hg.2.2.2.2.2, hg.2.2.2.1, hg.2.2.1⟩
  obtain ⟨f1, f2, f3, f4⟩ := hfields
  unfold doFetch
  simp only [ho]
  simp [getAdminToken, f1, f2, f3, f4]

theorem adminFetch_transport_error_witness :
    getAdminToken stFix ≠ "" ∧
    isTokenExpired decodeExp1000 5 (getAdminToken stFix) = false ∧
    (adminFetch decodeExp1000 5 oracleDown "/x" optsPost stFix).1 =
      .error ⟨"TypeError", "Failed to fetch"⟩ ∧
    getAdminToken (adminFetch decodeExp1000 5 oracleDown "/x" optsPost
      stFix).2 = getAdminToken stFix ∧
    (adminFetch decodeExp1000 5 oracleDown "/x" optsPost stFix).2.logouts =
      stFix.logouts := by
  have h := adminFetch_transport_error decodeExp1000 5 oracleDown "/x"
    optsPost stFix "TypeError" "Failed to fetch" (by decide) (by decide)
    (fun _ => rfl)
  exact ⟨by decide, by decide, h.1, h.2.1, h.2.2.1⟩

theorem forceLogout_adminToken (reason : String) (s : St) :
    (forceLogout reason s).adminToken = "" := by
  by_cases h : s.modalShown <;> by_cases h2 : reason = "請選擇登入方式" <;>
    simp [forceLogout, setAdminToken, clearCsrfToken, showLoginRequired, h, h2]

theorem forceLogout_logouts (reason : String) (s : St) :
    (forceLogout reason s).logouts = s.logouts ++ [reason] := by
  by_cases h : s.modalShown <;> by_cases h2 : reason = "請選擇登入方式" <;>
    simp [forceLogout, setAdminToken, clearCsrfToken, showLoginRequired, h, h2]

theorem forceLogout_modalShown (reason : String) (s : St) :
    (forceLogout reason s).modalShown = true := by
  by_cases h : s.modalShown <;> by_cases h2 : reason = "請選擇登入方式" <;>
    simp [forceLogout, setAdminToken, clearCsrfToken, showLoginRequired, h, h2]

theorem forceLogout_fetchLog (reason : String) (s : St) :
    (forceLogout reason s).fetchLog = s.fetchLog := by
  by_cases h : s.modalShown <;> by_cases h2 : reason = "請選擇登入方式" <;>
    simp [forceLogout, setAdminToken, clearCsrfToken, showLoginRequired, h, h2]

theorem forceLogout_csrfCache (reason : String) (s : St) :
    (forceLogout reason s).csrfCache = none := by
  by_cases h : s.modalShown <;> by_cases h2 : reason = "請選擇登入方式" <;>
    simp [forceLogout, setAdminToken, clearCsrfToken, showLoginRequired, h, h2]

/-- Under an oracle answering every call with one fixed non-ok response,
`getCsrfToken` returns its truthy cache or `null` and leaves every field
except the fetch log unchanged. -/
theorem getCsrfToken_notOk (oracle : Nat → FetchOutcome) (r : Response)
    (ho : ∀ i, oracle i = .success r) (hr : r.ok = false) (s : St) :
    ((getCsrfToken oracle s).1 =
      if truthyS s.csrfCache then s.csrfCache else none) ∧
    (getCsrfToken oracle s).2.adminToken = s.adminToken ∧
    (getCsrfToken oracle s).2.csrfCache = s.csrfCache ∧
    (getCsrfToken oracle s).2.modalShown = s.modalShown ∧
    (getCsrfToken oracle s).2.modalMsg = s.modalMsg ∧
    (getCsrfToken oracle s).2.logouts = s.logouts := by
  by_cases h1 : truthyS s.csrfCache <;> by_cases h2 : s.adminToken = "" <;>
    simp [getCsrfToken, getAdminToken, doFetch, ho, hr, h1, h2]

/-- A response whose status is not 403 makes the CSRF-retry step fall
through without touching the state. -/
theorem csrfRetryStep_not403 (oracle : Nat → FetchOutcome)
    (options : ReqOptions) (token fullUrl method : String) (r : Response)
    (s : St) (h : r.status ≠ 403) :
    csrfRetryStep oracle options token fullUrl method r s = (none, s) := by
  unfold csrfRetryStep
  rw [if_neg h]

/-- A parsed body with a truthy `detail` makes `detail` the extracted
auth-failure message. -/
theorem authErrorMessage_detail (r : Response) (b : RBody) (d : String)
    (hb : r.jsonBody = some b) (hd : b.detail = some d) (hdne : d ≠ "") :
    authErrorMessage r = d := by
  unfold authErrorMessage
  simp only [hb]
  rw [hd]
  simp [truthyS, hdne]

/-- C4: with a locally valid token, when the backend answers every call
with status 401 and a body whose `detail` is the (truthy) message `d`,
`forceLogout` is invoked exactly once with `d` (the logout log grows by
exactly `[d]`), the stored token is cleared so `getAdminToken` afterwards
returns the empty string, and the call fails with message `d`. -/
theorem adminFetch_401_detail (decode : String → Option Payload) (now : Int)
    (oracle : Nat → FetchOutcome) (url : String) (options : ReqOptions)
    (s : St) (r : Response) (b : RBody) (d : String)
    (ht : getAdminToken s ≠ "")
    (he : isTokenExpired decode now (getAdminToken s) = false)
    (ho : ∀ i, oracle i = .success r)
    (hst : r.status = 401) (hb : r.jsonBody = some b)
    (hd : b.detail = some d) (hdne : d ≠ "") :
    (adminFetch decode now oracle url options s).1 = .error ⟨"Error", d⟩ ∧
    (adminFetch decode now oracle url options s).2.logouts =
      s.logouts ++ [d] ∧
    getAdminToken (adminFetch decode now oracle url options s).2 = "" ∧
    (adminFetch decode now oracle url options s).2.modalShown = true := by
  have hok : r.ok = false := by simp [Response.ok, hst]
  have hg := getCsrfToken_notOk oracle r ho hok s
  have hck : checkTokenStatus decode now s = (true, s) := by
    simp only [getAdminToken] at ht he
    unfold checkTokenStatus getAdminToken
    rw [if_pos ht, he]
    simp
  have hst3 := csrfAttach_st oracle options (getAdminToken s) s
  unfold adminFetch
  simp only [hck]
  rcases hCS : csrfAttach oracle options (getAdminToken s) s with ⟨headers1, s3⟩
  rw [hCS] at hst3
  simp only [] at hst3
  have hf : s3.logouts = s.logouts := by
    rcases hst3 with h3 | h3
    · rw [h3]
    · rw [h3]; exact hg.2.2.2.2.2
  unfold doFetch
  simp only [ho]
  rw [csrfRetryStep_not403 oracle options (getAdminToken s) (normalizeUrl url)
    (effMethod options.method) r _ (by rw [hst]; decide)]
  simp [hst, authErrorMessage_detail r b d hb hd hdne, forceLogout_adminToken,
    forceLogout_logouts, forceLogout_modalShown, getAdminToken, hf]

theorem adminFetch_401_detail_witness :
    (adminFetch decodeExp1000 5 oracle401 "/x" optsGet stFix).1 =
      .error ⟨"Error", "session expired"⟩ ∧
    (adminFetch decodeExp1000 5 oracle401 "/x" optsGet stFix).2.logouts =
      stFix.logouts ++ ["session expired"] ∧
    getAdminToken
      (adminFetch decodeExp1000 5 oracle401 "/x" optsGet stFix).2 = "" ∧
    (adminFetch decodeExp1000 5 oracle401 "/x" optsGet
      stFix).2.modalShown = true := by
  have h := adminFetch_401_detail decodeExp1000 5 oracle401 "/x" optsGet
    stFix ⟨401, some ⟨none, some "session expired", none⟩⟩
    ⟨none, some "session expired", none⟩ "session expired"
    (by decide) (by decide) (fun _ => rfl) rfl rfl rfl (by decide)
  exact ⟨h.1, h.2.1, h.2.2.1, h.2.2.2⟩

/-- The CSRF-retry step on a 403 response with a CSRF-marker error body:
the cache is invalidated then refilled from a successful csrf-token fetch,
the request is retried once with the fresh token, and the ok retried
response is the final outcome; exactly two more network calls are issued
(csrf-token fetch + retry). -/
theorem csrfRetryStep_success (oracle : Nat → FetchOutcome)
    (options : ReqOptions) (token fullUrl method errStr c2 : String)
    (r2 : Response) (b2 : RBody) (s : St)
    (htok : s.adminToken ≠ "")
    (herr : strContains errStr "CSRF" = true)
    (ho1 : oracle s.fetchLog.length = .success ⟨200, some b2⟩)
    (hb2 : b2.csrf_token = some c2) (hc2 : c2 ≠ "")
    (ho2 : oracle (s.fetchLog.length + 1) = .success r2) (hr2 : r2.ok = true) :
    csrfRetryStep oracle options token fullUrl method
      ⟨403, some ⟨some errStr, none, none⟩⟩ s =
      (some (.ok r2),
       { s with csrfCache := some c2,
                fetchLog := (s.fetchLog ++
                  [⟨API_BASE_URL ++ "/csrf-token", "GET",
                    [("Authorization", "Bearer " ++ s.adminToken)]⟩]) ++
                  [⟨fullUrl, method,
                    hset (hset options.headers "Authorization"
                      ("Bearer " ++ token)) "X-CSRF-Token" c2⟩] }) := by
  have hGC : getCsrfToken oracle (clearCsrfToken s) =
      (some c2,
       { s with csrfCache := some c2,
                fetchLog := s.fetchLog ++
                  [⟨API_BASE_URL ++ "/csrf-token", "GET",
                    [("Authorization", "Bearer " ++ s.adminToken)]⟩] }) := by
    unfold getCsrfToken clearCsrfToken getAdminToken doFetch
    simp [truthyS, htok, ho1, Response.ok, hb2]
  unfold csrfRetryStep
  simp only [herr]
  simp [hGC, hc2, doFetch, ho2, hr2]

/-- C2 (amended): for a mutating request with a previously cached CSRF
token, when the first response is 403 with a body whose `error` contains a
CSRF marker, the cached token is invalidated, a fresh one is fetched, and
the request is retried exactly once; the successful retried response is
returned to the caller as the single outcome and no logout happens. The
request URL is fetched exactly twice (initial + retry) and one additional
network call goes to the csrf-token endpoint — 3 network calls in total,
not 2. -/
theorem adminFetch_csrf_retry (decode : String → Option Payload) (now : Int)
    (oracle : Nat → FetchOutcome) (url : String) (options : ReqOptions)
    (s : St) (errStr c0 c2 : String) (r2 : Response) (b2 : RBody)
    (ht : getAdminToken s ≠ "")
    (he : isTokenExpired decode now (getAdminToken s) = false)
    (hcache : s.csrfCache = some c0) (hc0 : c0 ≠ "")
    (hlog : s.fetchLog = [])
    (hmut : ["POST", "PUT", "DELETE", "PATCH"].contains
      (effMethod options.method) = true)
    (hhead : options.headers = [])
    (ho0 : oracle 0 = .success ⟨403, some ⟨some errStr, none, none⟩⟩)
    (herr : strContains errStr "CSRF" = true)
    (ho1 : oracle 1 = .success ⟨200, some b2⟩)
    (hb2 : b2.csrf_token = some c2) (hc2 : c2 ≠ "")
    (ho2 : oracle 2 = .success r2) (hr2 : r2.ok = true) :
    (adminFetch decode now oracle url options s).1 = .ok r2 ∧
    (adminFetch decode now oracle url options s).2.fetchLog.map
      (fun c => c.url) =
      [normalizeUrl url, API_BASE_URL ++ "/csrf-token", normalizeUrl url] ∧
    (adminFetch decode now oracle url options s).2.logouts = s.logouts := by
  have hck : checkTokenStatus decode now s = (true, s) := by
    simp only [getAdminToken] at ht he
    unfold checkTokenStatus getAdminToken
    rw [if_pos ht, he]
    simp
  have hGC : getCsrfToken oracle s = (some c0, s) := by
    unfold getCsrfToken
    simp [hcache, truthyS, hc0]
  have hCA : csrfAttach oracle options (getAdminToken s) s =
      (hset (hset options.headers "Authorization"
        ("Bearer " ++ getAdminToken s)) "X-CSRF-Token" c0, s) := by
    unfold csrfAttach
    simp only [hmut]
    simp [hGC, hhead, hget, hset, truthyS, hc0]
  have hRS := csrfRetryStep_success oracle options (getAdminToken s)
    (normalizeUrl url) (effMethod options.method) errStr c2 r2 b2
    { s with fetchLog := s.fetchLog ++
        [⟨normalizeUrl url, effMethod options.method,
          hset (hset options.headers "Authorization"
            ("Bearer " ++ getAdminToken s)) "X-CSRF-Token" c0⟩] }
    (by simpa using (by simpa [getAdminToken] using ht))
    herr
    (by simpa [hlog] using ho1)
    hb2 hc2
    (by simpa [hlog] using ho2)
    hr2
  unfold adminFetch
  simp only [hck, hCA]
  unfold doFetch
  simp only [hlog, List.length_nil, ho0]
  simp only [hlog, List.nil_append] at hRS ⊢
  rw [hRS]
  simp [getAdminToken]

/-- C2 counterexample: in the retry-success scenario the client does
return the retried 200 response, but the total number of network calls is
3 (initial request + csrf-token fetch + retry), not 2 as claimed. -/
theorem adminFetch_csrf_retry_counterexample :
    (adminFetch decodeExp1000 5 oracleCsrfRetry "/x" optsPost stFix).1 =
      .ok ⟨200, some ⟨none, none, none⟩⟩ ∧
    (adminFetch decodeExp1000 5 oracleCsrfRetry "/x" optsPost
      stFix).2.fetchLog.length = 3 ∧
    (adminFetch decodeExp1000 5 oracleCsrfRetry "/x" optsPost
      stFix).2.fetchLog.length ≠ 2 :=
  ⟨by decide, by decide, by decide⟩

theorem adminFetch_csrf_retry_witness :
    (adminFetch decodeExp1000 5 oracleCsrfRetry "/x" optsPost stFix).1 =
      .ok ⟨200, some ⟨none, none, none⟩⟩ ∧
    (adminFetch decodeExp1000 5 oracleCsrfRetry "/x" optsPost
      stFix).2.fetchLog.map (fun c => c.url) =
      [normalizeUrl "/x", API_BASE_URL ++ "/csrf-token",
        normalizeUrl "/x"] ∧
    (adminFetch decodeExp1000 5 oracleCsrfRetry "/x" optsPost
      stFix).2.logouts = stFix.logouts := by
  have h := adminFetch_csrf_retry decodeExp1000 5 oracleCsrfRetry "/x"
    optsPost stFix "CSRF token invalid" "old" "newcsrf"
    ⟨200, some ⟨none, none, none⟩⟩ ⟨none, none, some "newcsrf"⟩
    (by decide) (by decide) rfl (by decide) rfl (by decide) rfl rfl
    (by decide) rfl rfl (by decide) rfl (by decide)
  exact h

/-- With an empty CSRF cache and a stored token, `getCsrfToken` always
issues exactly one fetch to the csrf-token endpoint with the bearer
header, whatever the outcome. -/
theorem getCsrfToken_fetches (oracle : Nat → FetchOutcome) (s : St)
    (h1 : s.csrfCache = none) (h2 : s.adminToken ≠ "") :
    (getCsrfToken oracle s).2.fetchLog =
      s.fetchLog ++ [⟨API_BASE_URL ++ "/csrf-token", "GET",
        [("Authorization", "Bearer " ++ s.adminToken)]⟩] := by
  rcases hor : oracle s.fetchLog.length with r | ⟨n, m⟩
  · rcases hj : r.jsonBody with - | b <;> by_cases hok : r.ok = true <;>
      simp [getCsrfToken, getAdminToken, doFetch, truthyS, h1, h2, hor,
        hj, hok]
  · simp [getCsrfToken, getAdminToken, doFetch, truthyS, h1, h2, hor]

/-- C7: every change of the stored token through `setAdminToken` —
persisting a new token or clearing with `setAdminToken('')` — empties the
CSRF cache; after `setAdminToken('')`, `getAdminToken` returns the empty
string; and after a (truthy) token is set, the next `getCsrfToken` call
must fetch a fresh CSRF token from the csrf-token endpoint. -/
theorem setAdminToken_invalidates_csrf :
    (∀ (t : String) (s : St), (setAdminToken t s).csrfCache = none) ∧
    (∀ s : St, getAdminToken (setAdminToken "" s) = "") ∧
    (∀ (tok : String) (s : St) (oracle : Nat → FetchOutcome), tok ≠ "" →
      (getCsrfToken oracle (setAdminToken tok s)).2.fetchLog =
        (setAdminToken tok s).fetchLog ++
          [⟨API_BASE_URL ++ "/csrf-token", "GET",
            [("Authorization", "Bearer " ++ tok)]⟩]) := by
  refine ⟨?_, ?_, ?_⟩
  · intro t s
    by_cases h : t = "" <;> simp [setAdminToken, clearCsrfToken, h]
  · intro s
    simp [setAdminToken, clearCsrfToken, getAdminToken]
  · intro tok s oracle htok
    have h1 : (setAdminToken tok s).csrfCache = none := by
      simp [setAdminToken, clearCsrfToken, htok]
    have h2 : (setAdminToken tok s).adminToken = tok := by
      simp [setAdminToken, clearCsrfToken, htok]
    rw [getCsrfToken_fetches oracle (setAdminToken tok s) h1
      (by rw [h2]; exact htok), h2]

theorem setAdminToken_invalidates_csrf_witness :
    (setAdminToken "" stFix).csrfCache = none ∧
    getAdminToken (setAdminToken "" stFix) = "" ∧
    (getCsrfToken oracleDown (setAdminToken "t.u.v" stFix)).2.fetchLog =
      (setAdminToken "t.u.v" stFix).fetchLog ++
        [⟨API_BASE_URL ++ "/csrf-token", "GET",
          [("Authorization", "Bearer " ++ "t.u.v")]⟩] := by
  have h := setAdminToken_invalidates_csrf
  exact ⟨h.1 "" stFix, h.2.1 stFix, h.2.2 "t.u.v" stFix oracleDown (by decide)⟩

/-- C10: `getCsrfToken` never throws (it is total and catches every
failure internally): (a) with no stored token it returns `null` without
fetching and the state is untouched; (b) when the csrf-token fetch throws
it returns `null` and the cache stays empty; (c) when the endpoint answers
non-ok it returns `null` and the cache stays empty; (d) consequently a
mutating request whose CSRF fetch throws is still issued — without an
`X-CSRF-Token` header — and a 200 response is returned to the caller. -/
theorem getCsrfToken_never_throws :
    (∀ (oracle : Nat → FetchOutcome) (s : St),
      s.csrfCache = none → s.adminToken = "" →
      getCsrfToken oracle s = (none, s)) ∧
    (∀ (oracle : Nat → FetchOutcome) (s : St) (n m : String),
      s.csrfCache = none →
      oracle s.fetchLog.length = .throwErr n m →
      (getCsrfToken oracle s).1 = none ∧
      (getCsrfToken oracle s).2.csrfCache = none) ∧
    (∀ (oracle : Nat → FetchOutcome) (s : St) (r : Response),
      s.csrfCache = none →
      oracle s.fetchLog.length = .success r → r.ok = false →
      (getCsrfToken oracle s).1 = none ∧
      (getCsrfToken oracle s).2.csrfCache = none) ∧
    (∀ (decode : String → Option Payload) (now : Int)
      (oracle : Nat → FetchOutcome) (url : String) (options : ReqOptions)
      (s : St) (n m : String) (r : Response),
      getAdminToken s ≠ "" →
      isTokenExpired decode now (getAdminToken s) = false →
      s.csrfCache = none → s.fetchLog = [] →
      ["POST", "PUT", "DELETE", "PATCH"].contains
        (effMethod options.method) = true →
      options.headers = [] →
      oracle 0 = .throwErr n m → oracle 1 = .success r → r.status = 200 →
      (adminFetch decode now oracle url options s).1 = .ok r ∧
      (adminFetch decode now oracle url options s).2.fetchLog.map
        (fun c => (c.url, hget c.headers "X-CSRF-Token")) =
        [(API_BASE_URL ++ "/csrf-token", none), (normalizeUrl url, none)]) := by
  refine ⟨?_, ?_, ?_, ?_⟩
  · intro oracle s hc htok
    unfold getCsrfToken getAdminToken
    simp [hc, truthyS, htok]
  · intro oracle s n m hc hor
    constructor <;> simp [getCsrfToken, getAdminToken, doFetch, truthyS,
      hc, hor] <;> split <;> simp [hc]
  · intro oracle s r hc hor hok
    constructor <;> simp [getCsrfToken, getAdminToken, doFetch, truthyS,
      hc, hor, hok] <;> split <;> simp [hc]
  · intro decode now oracle url options s n m r ht he hc hlog hmut hh ho0
      ho1 hst
    have hck : checkTokenStatus decode now s = (true, s) := by
      simp only [getAdminToken] at ht he
      unfold checkTokenStatus getAdminToken
      rw [if_pos ht, he]
      simp
    have hGC : getCsrfToken oracle s =
        (none, { s with fetchLog := s.fetchLog ++
          [⟨API_BASE_URL ++ "/csrf-token", "GET",
            [("Authorization", "Bearer " ++ s.adminToken)]⟩] }) := by
      simp only [getAdminToken] at ht
      unfold getCsrfToken getAdminToken doFetch
      simp [hc, truthyS, ht, hlog, ho0]
    have hCA : csrfAttach oracle options (getAdminToken s) s =
        (hset options.headers "Authorization"
          ("Bearer " ++ getAdminToken s),
         { s with fetchLog := s.fetchLog ++
           [⟨API_BASE_URL ++ "/csrf-token", "GET",
             [("Authorization", "Bearer " ++ s.adminToken)]⟩] }) := by
      unfold csrfAttach
      simp only [hmut]
      simp [hGC, hh, hget, hset, truthyS]
    unfold adminFetch
    simp only [hck, hCA]
    unfold doFetch
    simp only [hlog, List.nil_append, List.length_cons, List.length_nil,
      ho1]
    rw [csrfRetryStep_not403 oracle options (getAdminToken s)
      (normalizeUrl url) (effMethod options.method) r _
      (by rw [hst]; decide)]
    simp [hst, hh, hget, hset, getAdminToken]

theorem getCsrfToken_never_throws_witness :
    getCsrfToken oracleDown stNoTok = (none, stNoTok) ∧
    (getCsrfToken oracleDown
      { stFix with csrfCache := none }).1 = none ∧
    (getCsrfToken oracle401
      { stFix with csrfCache := none }).2.csrfCache = none ∧
    (adminFetch decodeExp1000 5
      (fun i => if i = 0 then .throwErr "TypeError" "Failed to fetch"
        else .success ⟨200, none⟩) "/x" optsPost
      { stFix with csrfCache := none }).1 = .ok ⟨200, none⟩ := by
  have h := getCsrfToken_never_throws
  refine ⟨h.1 oracleDown stNoTok rfl rfl, ?_, ?_, ?_⟩
  · exact (h.2.1 oracleDown { stFix with csrfCache := none } "TypeError"
      "Failed to fetch" rfl rfl).1
  · exact (h.2.2.1 oracle401 { stFix with csrfCache := none }
      ⟨401, some ⟨none, some "session expired", none⟩⟩ rfl rfl
      (by decide)).2
  · exact (h.2.2.2 decodeExp1000 5
      (fun i => if i = 0 then .throwErr "TypeError" "Failed to fetch"
        else .success ⟨200, none⟩) "/x" optsPost
      { stFix with csrfCache := none } "TypeError" "Failed to fetch"
      ⟨200, none⟩ (by decide) (by decide) rfl rfl (by decide) rfl rfl rfl
      rfl).1
